import Mathlib

/-!
# Verification of `tap_iceberg/streams.py` (`IcebergTableStream`)

Shallow embedding of the incremental-scan stream class in
`src/tap_iceberg/streams.py`, together with models of the external
collaborators it calls into:

* Python scalar values flowing through the pipeline are modelled by `PyVal`
  (`None`, `str`, `int`, `bool`, `datetime.date`, `datetime.datetime`).
* `datetime.fromisoformat` / `datetime.isoformat` / `replace(tzinfo=None)`
  are modelled over a `PyDateTime` structure (offset restricted to whole
  minutes, which covers every string the tap itself produces).
* A pyarrow `RecordBatch` is a list of rows; a row is an association list
  from column name to `PyVal`; `RecordBatch.sort_by` is a stable merge sort
  on the key column under a total order on `PyVal` (Arrow columns are
  homogeneous; the order places null values last, matching Arrow's default
  null placement).
* The singer-sdk host runtime (`replication_key` property,
  `get_starting_replication_key_value`) is modelled by the state-resolution
  contract of spec section 6 (Host Runtime / State Store).

Python exceptions raised inside `get_records` (`ValueError` from
`datetime.fromisoformat`, `KeyError` from `formatters[field]`) are modelled
with `Except TapError`.
-/

/-- Model of Python's `datetime.datetime`: calendar fields plus an optional
UTC offset in whole minutes (`none` = timezone-naive). -/
structure PyDateTime where
  year : Nat
  month : Nat
  day : Nat
  hour : Nat
  minute : Nat
  second : Nat
  microsecond : Nat
  tzMinutes : Option Int
deriving DecidableEq, Repr

/-- A Python scalar value as it flows through the tap: `None`, `str`, `int`,
`bool`, `datetime.date y m d`, or `datetime.datetime dt`. -/
inductive PyVal where
  | none : PyVal
  | str (s : String) : PyVal
  | int (n : Int) : PyVal
  | bool (b : Bool) : PyVal
  | date (y m d : Nat) : PyVal
  | datetime (dt : PyDateTime) : PyVal
deriving DecidableEq, Repr

/-- Python truthiness (`if start_value:`) for the values that can appear as a
stored replication cursor. -/
def PyVal.truthy : PyVal → Bool
  | PyVal.none => false
  | PyVal.str s => !(s == "")
  | PyVal.int n => !(n == 0)
  | PyVal.bool b => b
  | PyVal.date _ _ _ => true
  | PyVal.datetime _ => true

/-- `isinstance(value, (date, datetime))` (Python's `datetime` is a subclass
of `date`). -/
def PyVal.isDateOrDatetime : PyVal → Bool
  | PyVal.date _ _ _ => true
  | PyVal.datetime _ => true
  | _ => false

/-- `isinstance(value, str)`. -/
def PyVal.isStr : PyVal → Bool
  | PyVal.str _ => true
  | _ => false

/-! ## Model of `datetime.fromisoformat` / `isoformat` -/

/-- Decimal digit value of a character, `none` if not a digit. -/
def digitVal (c : Char) : Option Nat :=
  if c.isDigit then some (c.toNat - 48) else Option.none

/-- Parse exactly `n` decimal digits into `acc` (most significant first). -/
def parseNDigits : Nat → Nat → List Char → Option (Nat × List Char)
  | 0, acc, cs => some (acc, cs)
  | Nat.succ n, acc, c :: cs =>
      match digitVal c with
      | some d => parseNDigits n (acc * 10 + d) cs
      | Option.none => Option.none
  | Nat.succ _, _, [] => Option.none

/-- Parse exactly two decimal digits. -/
def parse2 (cs : List Char) : Option (Nat × List Char) := parseNDigits 2 0 cs

/-- Parse exactly four decimal digits. -/
def parse4 (cs : List Char) : Option (Nat × List Char) := parseNDigits 4 0 cs

/-- Consume an expected literal character. -/
def expectChar (c : Char) : List Char → Option (List Char)
  | c' :: rest => if c' = c then some rest else Option.none
  | _ => Option.none

/-- Gregorian leap year. -/
def isLeapYear (y : Nat) : Bool :=
  (y % 4 == 0 && y % 100 != 0) || y % 400 == 0

/-- Number of days in a month (Python's `datetime` validates real calendar
dates). -/
def daysInMonth (y m : Nat) : Nat :=
  if m = 2 then (if isLeapYear y then 29 else 28)
  else if m = 4 ∨ m = 6 ∨ m = 9 ∨ m = 11 then 30
  else 31

/-- Parse the `YYYY-MM-DD` date portion with calendar validation. -/
def parseDatePart (cs : List Char) : Option (Nat × Nat × Nat × List Char) := do
  let (y, cs) ← parse4 cs
  let cs ← expectChar '-' cs
  let (mo, cs) ← parse2 cs
  let cs ← expectChar '-' cs
  let (d, cs) ← parse2 cs
  if 1 ≤ mo ∧ mo ≤ 12 ∧ 1 ≤ d ∧ d ≤ daysInMonth y mo then pure (y, mo, d, cs)
  else Option.none

/-- Parse an optional fractional-second suffix, returning microseconds.
`datetime.fromisoformat` accepts exactly three or exactly six fractional
digits. -/
def parseFraction : List Char → Option (Nat × List Char)
  | '.' :: rest =>
      match parseNDigits 6 0 rest with
      | some (us, rest') => some (us, rest')
      | Option.none => do
          let (ms, rest') ← parseNDigits 3 0 rest
          pure (ms * 1000, rest')
  | cs => some (0, cs)

/-- Parse an optional `±HH:MM` UTC-offset suffix (offset in minutes). -/
def parseOffset : List Char → Option (Option Int × List Char)
  | '+' :: rest => do
      let (h, rest) ← parse2 rest
      let rest ← expectChar ':' rest
      let (m, rest) ← parse2 rest
      if h < 24 ∧ m < 60 then pure (some ((h * 60 + m : Nat) : Int), rest) else Option.none
  | '-' :: rest => do
      let (h, rest) ← parse2 rest
      let rest ← expectChar ':' rest
      let (m, rest) ← parse2 rest
      if h < 24 ∧ m < 60 then pure (some (-((h * 60 + m : Nat) : Int)), rest) else Option.none
  | cs => some (Option.none, cs)

/-- Parse the `HH:MM[:SS[.fff|.ffffff]]` time portion. -/
def parseTimePart (cs : List Char) : Option (Nat × Nat × Nat × Nat × List Char) := do
  let (hh, cs) ← parse2 cs
  let cs ← expectChar ':' cs
  let (mi, cs) ← parse2 cs
  let (ss, cs) ←
    match cs with
    | ':' :: rest => parse2 rest
    | _ => some (0, cs)
  let (us, cs) ← parseFraction cs
  if hh ≤ 23 ∧ mi ≤ 59 ∧ ss ≤ 59 ∧ us ≤ 999999 then pure (hh, mi, ss, us, cs)
  else Option.none

/-- Model of Python's `datetime.fromisoformat`: `YYYY-MM-DD`, optionally a
single separator character, `HH:MM[:SS[.fff|.ffffff]]` and a `±HH:MM`
offset.  Any leftover input is an error (Python raises `ValueError`, the
model returns `none`). -/
def fromisoformat (s : String) : Option PyDateTime := do
  let (y, mo, d, cs) ← parseDatePart s.toList
  match cs with
  | [] => pure ⟨y, mo, d, 0, 0, 0, 0, Option.none⟩
  | _ :: timeChars => do
      -- any single separator character between date and time is accepted
      let (hh, mi, ss, us, cs) ← parseTimePart timeChars
      let (tz, cs) ← parseOffset cs
      match cs with
      | [] => pure ⟨y, mo, d, hh, mi, ss, us, tz⟩
      | _ => Option.none

/-- Left-pad a number with zeroes to the given width. -/
def padNum (width n : Nat) : String :=
  let s := toString n
  String.mk (List.replicate (width - s.length) '0') ++ s

/-- Model of `datetime.replace(tzinfo=None)`. -/
def PyDateTime.replaceTzNone (dt : PyDateTime) : PyDateTime :=
  { dt with tzMinutes := Option.none }

/-- Model of `datetime.isoformat()`: `YYYY-MM-DDTHH:MM:SS`, `.ffffff` only
when microseconds are nonzero, `±HH:MM` only when an offset is attached. -/
def PyDateTime.isoformat (dt : PyDateTime) : String :=
  padNum 4 dt.year ++ "-" ++ padNum 2 dt.month ++ "-" ++ padNum 2 dt.day ++ "T"
    ++ padNum 2 dt.hour ++ ":" ++ padNum 2 dt.minute ++ ":" ++ padNum 2 dt.second
    ++ (if dt.microsecond = 0 then "" else "." ++ padNum 6 dt.microsecond)
    ++ (match dt.tzMinutes with
        | Option.none => ""
        | some off =>
            (if off < 0 then "-" else "+")
              ++ padNum 2 (off.natAbs / 60) ++ ":" ++ padNum 2 (off.natAbs % 60))

/-- Model of `datetime.date.isoformat()` for `PyVal.date`. -/
def dateIso (y m d : Nat) : String :=
  padNum 4 y ++ "-" ++ padNum 2 m ++ "-" ++ padNum 2 d

/-! ## Rows, batches and `RecordBatch.sort_by` -/

/-- A row of a pyarrow record batch, as produced by `batch.to_pylist()`: an
association list from column name to value (dict keys are unique and in
schema order). -/
abbrev Row : Type := List (String × PyVal)

/-- An in-memory pyarrow `RecordBatch`, as an ordered list of rows. -/
abbrev Batch : Type := List Row

/-- Sort key for `PyVal` used to model Arrow's comparison on a (homogeneous)
key column: a type tag, a numeric component and a string component, compared
lexicographically.  Null values get the largest tag, matching Arrow's
default `at_end` null placement in `sort_by`. -/
def tzCode : Option Int → Int
  | Option.none => 0
  | some off => off + 1441

def dtCode (dt : PyDateTime) : Int :=
  (((((((dt.year * 13 + dt.month) * 32 + dt.day) * 25 + dt.hour) * 61
        + dt.minute) * 61 + dt.second) * 1000000 + dt.microsecond : Nat) : Int)
      * 3000
    + tzCode dt.tzMinutes

def PyVal.sortKey : PyVal → Nat × Int × String
  | PyVal.bool b => (0, if b then 1 else 0, "")
  | PyVal.int n => (1, n, "")
  | PyVal.str s => (2, 0, s)
  | PyVal.date y m d => (3, (((y * 13 + m) * 32 + d : Nat) : Int), "")
  | PyVal.datetime dt => (4, dtCode dt, "")
  | PyVal.none => (5, 0, "")

/-- Lexicographic comparison of the three-component sort keys. -/
def lexLe3 (a b : Nat × Int × String) : Bool :=
  a.1 < b.1 || (a.1 == b.1 && (a.2.1 < b.2.1 || (a.2.1 == b.2.1 && a.2.2 ≤ b.2.2)))

/-- Total order on `PyVal` modelling Arrow's ascending comparison. -/
def pyLe (a b : PyVal) : Bool := lexLe3 a.sortKey b.sortKey

/-- The value of column `key` in a row (`none` models a null cell). -/
def rowKey (key : String) (r : Row) : PyVal :=
  (List.lookup key r).getD PyVal.none

/-- Ascending comparison of two rows on column `key`. -/
def rowLe (key : String) (r1 r2 : Row) : Bool :=
  pyLe (rowKey key r1) (rowKey key r2)

/-- Model of pyarrow's `batch.sort_by(sort_key)`: ascending stable sort of
the rows by the key column. -/
def Batch.sort_by (b : Batch) (sort_key : String) : Batch :=
  List.mergeSort b (rowLe sort_key)

/-! ## The stream class state and the JSON-schema field specifications -/

/-- One entry of `self.schema["properties"]`: the JSON-schema-shaped field
specification produced by the schema/catalog generator (spec section 6:
`type` is a list of type names including `"null"` when nullable; a date
field additionally carries `format: "date"`). -/
structure FieldSchema where
  type : List String
  format : Option String
deriving DecidableEq, Repr

/-- The per-stream state read by `get_records` and its helpers:
`sortOrderFields` are the field names of the table's sort order
(`[]` models `sort_order().is_unsorted`); `replicationKeyAttr` is the
`_replication_key` attribute (set in `__init__` from a single-field sort
order, or by the singer-sdk host through catalog/config); `properties` is
`self.schema["properties"]`. -/
structure IcebergTableStream where
  sortOrderFields : List String
  replicationKeyAttr : Option String
  properties : List (String × FieldSchema)
deriving DecidableEq, Repr

/-- `__init__`: derive `_replication_key` from the sort order when it has
exactly one field, otherwise leave the attribute as the host set it. -/
def initStream (sortOrderFields : List String) (hostReplicationKey : Option String)
    (properties : List (String × FieldSchema)) : IcebergTableStream :=
  { sortOrderFields := sortOrderFields
    replicationKeyAttr :=
      if sortOrderFields.length = 1 then sortOrderFields.head? else hostReplicationKey
    properties := properties }

/-- The singer-sdk `replication_key` property: `None` when the attribute is
falsy (unset or empty string), otherwise the attribute. -/
def replication_key (s : IcebergTableStream) : Option String :=
  match s.replicationKeyAttr with
  | some k => if k == "" then Option.none else some k
  | Option.none => Option.none

/-- `is_sorted`: `not self._iceberg_table.sort_order().is_unsorted` — true
exactly when the table declares a non-empty sort order (on any fields). -/
def is_sorted (s : IcebergTableStream) : Bool :=
  !(s.sortOrderFields.isEmpty)

/-- Modelled from the spec: the singer-sdk host runtime's
`get_starting_replication_key_value` (spec section 6, Host Runtime / State
Store) — supplies the persisted cursor value when a replication key is
configured, `None` otherwise.  `cursor` is the stored state entry
(`none` = no persisted value). -/
def get_starting_replication_key_value (s : IcebergTableStream)
    (cursor : Option PyVal) : PyVal :=
  match replication_key s, cursor with
  | some _, some v => v
  | _, _ => PyVal.none

/-- Python exceptions that can escape `get_records`: `ValueError` from
`datetime.fromisoformat`, `KeyError` from `formatters[field]`. -/
inductive TapError where
  | valueError : TapError
  | keyError : TapError
deriving DecidableEq, Repr

/-- The scan predicate handed to `self._iceberg_table.scan`. -/
inductive FilterExpr where
  | alwaysTrue : FilterExpr
  | greaterThan (field : String) (value : PyVal) : FilterExpr
deriving DecidableEq, Repr

/-- `self.replication_key` as passed positionally to `GreaterThan` (only
reached when the property is non-`None`). -/
def optStr : Option String → String
  | some k => k
  | Option.none => ""

/-- The filter-building prefix of `get_records` (streams.py lines 55-69):
`AlwaysTrue` unless the resolved starting value is truthy; a truthy string
is re-encoded through `fromisoformat`/`replace(tzinfo=None)`/`isoformat`
(a failed parse raises `ValueError`); the result feeds `GreaterThan`. -/
def buildFilter (s : IcebergTableStream) (cursor : Option PyVal) :
    Except TapError FilterExpr :=
  let start_value := get_starting_replication_key_value s cursor
  if start_value.truthy then
    match start_value with
    | PyVal.str sv =>
        match fromisoformat sv with
        | some dt =>
            Except.ok (FilterExpr.greaterThan (optStr (replication_key s))
              (PyVal.str (PyDateTime.isoformat (PyDateTime.replaceTzNone dt))))
        | Option.none => Except.error TapError.valueError
    | v => Except.ok (FilterExpr.greaterThan (optStr (replication_key s)) v)
  else Except.ok FilterExpr.alwaysTrue

/-- `_create_sorted_batch_reader` (streams.py lines 86-107): a generator
that yields `batch.sort_by(sort_key)` for each incoming batch, repackaged
as a reader over the same schema. -/
def _create_sorted_batch_reader (reader : List Batch) (sort_key : String) :
    List Batch :=
  reader.map (fun batch => Batch.sort_by batch sort_key)

/-- The conditional re-ordering step of `get_records` (streams.py lines
74-78): `if self.replication_key and not self.is_sorted:` wrap the reader,
sorting by the `_replication_key` attribute. -/
def sortStage (s : IcebergTableStream) (batch_reader : List Batch) : List Batch :=
  if (replication_key s).isSome && !(is_sorted s) then
    _create_sorted_batch_reader batch_reader (optStr s.replicationKeyAttr)
  else batch_reader

/-! ## Record formatting -/

/-- The three closures `_create_formatters` can put in the dict: the date
branch `lambda x: self._format_date(x)`, the nullable branch
`lambda x: x if x is not None else None`, and `lambda x: x`.  Each closure
captures no mutable state, so the dict entries are exactly these three
functions, represented as tags. -/
inductive Formatter where
  | dateFmt : Formatter
  | nullPreserving : Formatter
  | identity : Formatter
deriving DecidableEq, Repr

/-- `_format_date` (streams.py lines 120-126): date/datetime objects render
to `isoformat()[:10]`, strings are truncated to 10 characters, anything
else collapses to `None`. -/
def _format_date : PyVal → PyVal
  | PyVal.date y m d => PyVal.str ((dateIso y m d).take 10)
  | PyVal.datetime dt => PyVal.str ((PyDateTime.isoformat dt).take 10)
  | PyVal.str s => PyVal.str (s.take 10)
  | _ => PyVal.none

/-- Apply one of the three formatter closures to a value. -/
def Formatter.apply : Formatter → PyVal → PyVal
  | Formatter.dateFmt, v => _format_date v
  | Formatter.nullPreserving, v => if v == PyVal.none then PyVal.none else v
  | Formatter.identity, v => v

/-- The branch structure of `_create_formatters` for one field:
`schema.get("format") == "date" and schema["type"] == ["string", "null"]`
selects the date closure, `"null" in schema["type"]` the null-preserving
closure, anything else plain identity. -/
def formatterFor (schema : FieldSchema) : Formatter :=
  if schema.format == some "date" && schema.type == ["string", "null"] then
    Formatter.dateFmt
  else if schema.type.contains "null" then Formatter.nullPreserving
  else Formatter.identity

/-- `_create_formatters` (streams.py lines 109-118): one formatter per entry
of `self.schema["properties"]`. -/
def _create_formatters (properties : List (String × FieldSchema)) :
    List (String × Formatter) :=
  properties.map (fun p => (p.1, formatterFor p.2))

/-- `_format_record` (streams.py lines 128-131):
`{field: formatters[field](value) for field, value in record.items()}`.
The dict subscript has no fallback, so a field absent from `formatters`
raises `KeyError`, modelled by `none`. -/
def _format_record : Row → List (String × Formatter) → Option Row
  | [], _ => some []
  | fv :: rest, formatters =>
      match List.lookup fv.1 formatters with
      | some fmt =>
          match _format_record rest formatters with
          | some out => some ((fv.1, Formatter.apply fmt fv.2) :: out)
          | Option.none => Option.none
      | Option.none => Option.none

/-! ## The `get_records` pipeline -/

/-- The post-filter tail of `get_records`: conditional sort stage, then
flatten the batches to rows and format each row. -/
def runPipeline (s : IcebergTableStream) (batches : List Batch) :
    Except TapError (List Row) :=
  match ((sortStage s batches).flatten).mapM
      (fun r => _format_record r (_create_formatters s.properties)) with
  | some rows => Except.ok rows
  | Option.none => Except.error TapError.keyError

/-- `get_records` (streams.py lines 53-84) as a function of the stream
state, the persisted cursor value and the table layer's
`scan(row_filter).to_arrow_batch_reader()` (an external collaborator,
abstracted as a function from filter expression to batch list).  The
resulting `Except` is the full lazily-yielded record sequence, or the
exception that escapes before/while yielding. -/
def get_records (s : IcebergTableStream) (cursor : Option PyVal)
    (scan : FilterExpr → List Batch) : Except TapError (List Row) :=
  match buildFilter s cursor with
  | Except.error e => Except.error e
  | Except.ok filter_expression => runPipeline s (scan filter_expression)

/-! ## Spec-side definitions (for refinement comparisons only) -/

/-- Modelled from the spec (section 4.3): the "table is natively sorted by
replication key" flag, derived from the Sort Order Descriptor — the table's
primary sort field is the replication key. -/
def tableSortedOnKey (s : IcebergTableStream) (k : String) : Bool :=
  s.sortOrderFields.head? == some k

/-- Modelled from the spec (section 6): the schema/catalog generator "marks
a field nullable" by making `type` a list that includes `"null"`. -/
def specNullable (schema : FieldSchema) : Bool :=
  schema.type.contains "null"

/-! ## Order lemmas for the batch sort -/

theorem lexLe3_trans (a b c : Nat × Int × String)
    (h1 : lexLe3 a b = true) (h2 : lexLe3 b c = true) : lexLe3 a c = true := by
  rcases a with ⟨a1, a2, a3⟩
  rcases b with ⟨b1, b2, b3⟩
  rcases c with ⟨c1, c2, c3⟩
  simp only [lexLe3, Bool.or_eq_true, Bool.and_eq_true, decide_eq_true_eq,
    beq_iff_eq] at h1 h2 ⊢
  rcases h1 with h1 | ⟨e1, h1⟩ <;> rcases h2 with h2 | ⟨e2, h2⟩
  · exact Or.inl (lt_trans h1 h2)
  · exact Or.inl (by omega)
  · exact Or.inl (by omega)
  · refine Or.inr ⟨by omega, ?_⟩
    rcases h1 with h1 | ⟨f1, h1⟩ <;> rcases h2 with h2 | ⟨f2, h2⟩
    · exact Or.inl (lt_trans h1 h2)
    · exact Or.inl (by omega)
    · exact Or.inl (by omega)
    · exact Or.inr ⟨by omega, le_trans h1 h2⟩

theorem lexLe3_total (a b : Nat × Int × String) :
    (lexLe3 a b || lexLe3 b a) = true := by
  rcases a with ⟨a1, a2, a3⟩
  rcases b with ⟨b1, b2, b3⟩
  simp only [lexLe3, Bool.or_eq_true, Bool.and_eq_true, decide_eq_true_eq,
    beq_iff_eq]
  rcases Nat.lt_trichotomy a1 b1 with h | h | h
  · exact Or.inl (Or.inl h)
  · rcases Int.lt_trichotomy a2 b2 with h' | h' | h'
    · exact Or.inl (Or.inr ⟨h, Or.inl h'⟩)
    · rcases le_total a3 b3 with h'' | h''
      · exact Or.inl (Or.inr ⟨h, Or.inr ⟨h', h''⟩⟩)
      · exact Or.inr (Or.inr ⟨h.symm, Or.inr ⟨h'.symm, h''⟩⟩)
    · exact Or.inr (Or.inr ⟨h.symm, Or.inl h'⟩)
  · exact Or.inr (Or.inl h)

theorem rowLe_trans (k : String) (r1 r2 r3 : Row)
    (h1 : rowLe k r1 r2 = true) (h2 : rowLe k r2 r3 = true) :
    rowLe k r1 r3 = true := by
  unfold rowLe pyLe at h1 h2 ⊢
  exact lexLe3_trans _ _ _ h1 h2

theorem rowLe_total (k : String) (r1 r2 : Row) :
    (rowLe k r1 r2 || rowLe k r2 r1) = true := by
  unfold rowLe pyLe
  exact lexLe3_total _ _

/-- `batch.sort_by(key)` is a permutation of the batch. -/
theorem sort_by_perm (b : Batch) (k : String) : (Batch.sort_by b k).Perm b :=
  List.mergeSort_perm b (rowLe k)

/-- `batch.sort_by(key)` is ascending on the key column. -/
theorem sort_by_sorted (b : Batch) (k : String) :
    List.Pairwise (fun r1 r2 => rowLe k r1 r2 = true) (Batch.sort_by b k) :=
  List.sorted_mergeSort (fun r1 r2 r3 => rowLe_trans k r1 r2 r3)
    (fun r1 r2 => rowLe_total k r1 r2) b

/-! ## Lemmas about the formatter dict -/

/-- The formatter dict built by `_create_formatters` binds every field of
`properties` (and nothing else) to the formatter its branch selects. -/
theorem lookup_create_formatters (props : List (String × FieldSchema)) (f : String) :
    List.lookup f (_create_formatters props) =
      (List.lookup f props).map formatterFor := by
  induction props with
  | nil => rfl
  | cons p ps ih =>
      rcases p with ⟨name, sch⟩
      by_cases h : f = name
      · subst h
        simp [_create_formatters, List.lookup]
      · have hb : (f == name) = false := by simpa using h
        simp only [_create_formatters, List.map_cons, List.lookup, hb] at ih ⊢
        exact ih

/-- A formatter other than the date rule acts as the identity on non-null
values (and the null-preserving rule is the identity even on `None`). -/
theorem formatter_apply_identity (sch : FieldSchema) (v : PyVal)
    (hd : (sch.format == some "date" && specNullable sch) = false)
    (hv : v ≠ PyVal.none) :
    Formatter.apply (formatterFor sch) v = v := by
  unfold formatterFor
  split
  · rename_i h
    exfalso
    simp only [Bool.and_eq_true, beq_iff_eq] at h
    rcases h with ⟨h1, h2⟩
    rw [specNullable] at hd
    rw [h1, h2] at hd
    simp at hd
  · split
    · simp only [Formatter.apply]
      have : (v == PyVal.none) = false := by simpa using hv
      rw [this]
      rfl
    · rfl

/-! ## Concrete inputs used by counterexamples and witnesses -/

/-- A stream whose table declares a two-field sort order while the host
configured replication key is a different field (spec section 8 and 9 allow
an externally configured key; `__init__` only overrides the attribute when
the sort order has exactly one field). -/
def sC1 : IcebergTableStream :=
  { sortOrderFields := ["category", "label"]
    replicationKeyAttr := some "ts"
    properties := [] }

/-- One batch whose rows are strictly descending on `ts`. -/
def bC1 : Batch := [[("ts", PyVal.int 2)], [("ts", PyVal.int 1)]]

/-- An unsorted table with replication key `id`. -/
def sC2 : IcebergTableStream :=
  { sortOrderFields := [], replicationKeyAttr := some "id", properties := [] }

/-- An unsorted table with replication key `ts`. -/
def sW1 : IcebergTableStream :=
  { sortOrderFields := [], replicationKeyAttr := some "ts", properties := [] }

/-! ## C1 -/

/-- C1 (counterexample): the table of `sC1` is not sorted on the replication
key `ts` (its sort order is on other fields), yet `get_records`'s sort stage
passes the batch through unchanged and the batch stays unsorted on `ts` —
the claim's "otherwise every batch is sorted" branch does not hold, because
the code tests `is_sorted` (any sort order at all), not "sorted on the
replication key". -/
theorem C1_counterexample :
    replication_key sC1 = some "ts" ∧
    tableSortedOnKey sC1 "ts" = false ∧
    is_sorted sC1 = true ∧
    sortStage sC1 [bC1] = [bC1] ∧
    rowLe "ts" (bC1.getD 0 []) (bC1.getD 1 []) = false :=
  ⟨rfl, rfl, rfl, rfl, rfl⟩

/-- C1 (amended): the sort wrapper is applied exactly when the replication
key is present and the table declares no sort order at all: if the key is
absent or the table declares any sort order (on whatever fields), batches
pass through unchanged; otherwise every batch is independently sorted
ascending by the replication key. -/
theorem C1_sort_reconciler (s : IcebergTableStream) (batches : List Batch) :
    ((replication_key s = Option.none ∨ is_sorted s = true) →
        sortStage s batches = batches) ∧
    (∀ k, s.replicationKeyAttr = some k → (k == "") = false →
        is_sorted s = false →
        sortStage s batches = batches.map (fun b => Batch.sort_by b k) ∧
        ∀ b, b ∈ sortStage s batches →
          List.Pairwise (fun r1 r2 => rowLe k r1 r2 = true) b) := by
  constructor
  · intro h
    unfold sortStage
    rcases h with h | h
    · rw [h]
      rfl
    · rw [h]
      simp
  · intro k hattr hk hsort
    have hrep : replication_key s = some k := by
      unfold replication_key
      rw [hattr]
      simp [hk]
    have hcond : sortStage s batches = batches.map (fun b => Batch.sort_by b k) := by
      unfold sortStage
      rw [hrep, hsort, hattr]
      rfl
    refine ⟨hcond, ?_⟩
    intro b hb
    rw [hcond] at hb
    obtain ⟨b', _, rfl⟩ := List.mem_map.mp hb
    exact sort_by_sorted b' k

/-- C1 (witness): with a declared sort order the batches pass through
unchanged; with replication key `ts` and no sort order the reader is mapped
through the per-batch sort. -/
theorem C1_witness :
    sortStage sC1 [bC1] = [bC1] ∧
    sortStage sW1 [bC1] = [bC1].map (fun b => Batch.sort_by b "ts") :=
  ⟨(C1_sort_reconciler sC1 [bC1]).1 (Or.inr rfl),
   ((C1_sort_reconciler sW1 [bC1]).2 "ts" rfl rfl rfl).1⟩

/-! ## C2 -/

/-- C2 (counterexample): the stored cursor value `0` for replication key
`id` is present, but `if start_value:` tests Python truthiness, so the
filter built is the unconditional `AlwaysTrue`, not a strictly-greater-than
predicate. -/
theorem C2_counterexample :
    replication_key sC2 = some "id" ∧
    buildFilter sC2 (some (PyVal.int 0)) = Except.ok FilterExpr.alwaysTrue ∧
    (FilterExpr.alwaysTrue == FilterExpr.greaterThan "id" (PyVal.int 0)) = false :=
  ⟨rfl, rfl, rfl⟩

/-- C2 (amended): for every stream with a replication key and every stored
cursor value that is truthy (non-`None` and not a Python-falsy value such as
`0` or the empty string), the filter built is a strictly-greater-than
predicate on the replication key with that value; a truthy string value is
first parsed by `fromisoformat` and re-encoded through
`replace(tzinfo=None).isoformat()`, so the embedded string is
timezone-naive. -/
theorem C2_watermark_predicate (s : IcebergTableStream) (v : PyVal) (k : String)
    (hk : replication_key s = some k) (ht : v.truthy = true) :
    (v.isStr = false →
        buildFilter s (some v) = Except.ok (FilterExpr.greaterThan k v)) ∧
    (∀ sv dt, v = PyVal.str sv → fromisoformat sv = some dt →
        buildFilter s (some v) =
          Except.ok (FilterExpr.greaterThan k
            (PyVal.str (PyDateTime.isoformat (PyDateTime.replaceTzNone dt)))) ∧
        (PyDateTime.replaceTzNone dt).tzMinutes = Option.none) := by
  have hres : get_starting_replication_key_value s (some v) = v := by
    unfold get_starting_replication_key_value
    rw [hk]
  constructor
  · intro hstr
    cases v with
    | str sv => simp [PyVal.isStr] at hstr
    | none => simp [PyVal.truthy] at ht
    | int n =>
        have hn : (n == 0) = false := by simpa [PyVal.truthy] using ht
        simp [buildFilter, hres, PyVal.truthy, hn, optStr, hk]
    | bool b =>
        have hb : b = true := by simpa [PyVal.truthy] using ht
        subst hb
        simp [buildFilter, hres, PyVal.truthy, optStr, hk]
    | date y m d => simp [buildFilter, hres, PyVal.truthy, optStr, hk]
    | datetime dt => simp [buildFilter, hres, PyVal.truthy, optStr, hk]
  · intro sv dt hv hparse
    subst hv
    have hsv : (sv == "") = false := by simpa [PyVal.truthy] using ht
    refine ⟨?_, rfl⟩
    simp [buildFilter, hres, PyVal.truthy, hsv, hparse, optStr, hk]

/-- C2 (witness): a truthy integer cursor is embedded as-is; a truthy
ISO string with an offset is re-encoded without its offset before being
embedded. -/
theorem C2_witness :
    buildFilter sC2 (some (PyVal.int 7)) =
      Except.ok (FilterExpr.greaterThan "id" (PyVal.int 7)) ∧
    buildFilter sW1 (some (PyVal.str "2023-01-02T03:04:05+05:00")) =
      Except.ok (FilterExpr.greaterThan "ts" (PyVal.str "2023-01-02T03:04:05")) := by
  constructor
  · exact (C2_watermark_predicate sC2 (PyVal.int 7) "id" rfl rfl).1 rfl
  · have h := ((C2_watermark_predicate sW1 (PyVal.str "2023-01-02T03:04:05+05:00")
      "ts" rfl rfl).2 "2023-01-02T03:04:05+05:00"
      ⟨2023, 1, 2, 3, 4, 5, 0, some 300⟩ rfl rfl).1
    exact h.trans (by rfl)

/-! ## C3 -/

/-- C3 (confirmed): `_create_sorted_batch_reader` yields exactly as many
batches as the input, in the same batch order (index-wise), each output
batch a permutation of the corresponding input batch that is ascending on
the sort key; nothing relates rows across batch boundaries. -/
theorem C3_sorted_batch_reader (batches : List Batch) (k : String) :
    (_create_sorted_batch_reader batches k).length = batches.length ∧
    ∀ i, i < batches.length →
      ((_create_sorted_batch_reader batches k).getD i []).Perm (batches.getD i []) ∧
      List.Pairwise (fun r1 r2 => rowLe k r1 r2 = true)
        ((_create_sorted_batch_reader batches k).getD i []) := by
  refine ⟨by simp [_create_sorted_batch_reader], ?_⟩
  intro i hi
  have hmap : (_create_sorted_batch_reader batches k).getD i [] =
      Batch.sort_by (batches.getD i []) k := by
    unfold _create_sorted_batch_reader
    rw [List.getD_eq_getElem?_getD, List.getElem?_map, List.getElem?_eq_getElem hi,
      List.getD_eq_getElem?_getD, List.getElem?_eq_getElem hi]
    rfl
  rw [hmap]
  exact ⟨sort_by_perm _ _, sort_by_sorted _ _⟩

/-- Three batches, each internally unsorted on `ts`. -/
def batchesC3 : List Batch :=
  [[[("ts", PyVal.int 3)], [("ts", PyVal.int 1)]],
   [[("ts", PyVal.int 5)], [("ts", PyVal.int 4)]],
   [[("ts", PyVal.int 2)], [("ts", PyVal.int 0)]]]

/-- C3 (witness): instantiating the reader theorem on three concrete
batches. -/
theorem C3_witness :
    (_create_sorted_batch_reader batchesC3 "ts").length = batchesC3.length ∧
    ((_create_sorted_batch_reader batchesC3 "ts").getD 1 []).Perm (batchesC3.getD 1 []) ∧
    List.Pairwise (fun r1 r2 => rowLe "ts" r1 r2 = true)
      ((_create_sorted_batch_reader batchesC3 "ts").getD 1 []) :=
  ⟨(C3_sorted_batch_reader batchesC3 "ts").1,
   (C3_sorted_batch_reader batchesC3 "ts").2 1 (by decide)⟩

/-! ## C4 -/

/-- A scan stub standing in for the external table layer. -/
def scanStub : FilterExpr → List Batch := fun _ => [[[("a", PyVal.int 1)]]]

/-- A stream with no replication key and one integer field. -/
def sC4 : IcebergTableStream :=
  { sortOrderFields := []
    replicationKeyAttr := Option.none
    properties := [("a", { type := ["integer"], format := Option.none })] }

/-- C4 (confirmed): when the stream has no replication key, or the resolved
starting value is absent, `get_records` hands the scan the unconditional
`AlwaysTrue` predicate, whatever cursor state is stored. -/
theorem C4_unconditional_predicate (s : IcebergTableStream) (cursor : Option PyVal)
    (scan : FilterExpr → List Batch)
    (h : replication_key s = Option.none ∨
        get_starting_replication_key_value s cursor = PyVal.none) :
    get_records s cursor scan = runPipeline s (scan FilterExpr.alwaysTrue) := by
  have hres : get_starting_replication_key_value s cursor = PyVal.none := by
    rcases h with h | h
    · unfold get_starting_replication_key_value
      rw [h]
    · exact h
  have hbf : buildFilter s cursor = Except.ok FilterExpr.alwaysTrue := by
    simp [buildFilter, hres, PyVal.truthy]
  unfold get_records
  rw [hbf]

/-- C4 (witness): a stream with no replication key and a stored string
cursor still scans with `AlwaysTrue`, and the pipeline yields the scanned
row unchanged. -/
theorem C4_witness :
    get_records sC4 (some (PyVal.str "2023-01-01T00:00:00")) scanStub =
      runPipeline sC4 (scanStub FilterExpr.alwaysTrue) ∧
    runPipeline sC4 (scanStub FilterExpr.alwaysTrue) =
      Except.ok [[("a", PyVal.int 1)]] :=
  ⟨C4_unconditional_predicate sC4 (some (PyVal.str "2023-01-01T00:00:00")) scanStub
      (Or.inl rfl),
   rfl⟩

/-! ## C5 -/

/-- C5 (confirmed): a stored cursor string that `fromisoformat` rejects
makes `get_records` raise (`ValueError`, the spec's `FilterBuildError`)
before the scan is even requested, so no record is emitted. -/
theorem C5_unparseable_cursor (s : IcebergTableStream) (cursor : Option PyVal)
    (scan : FilterExpr → List Batch) (sv : String)
    (h1 : get_starting_replication_key_value s cursor = PyVal.str sv)
    (h2 : (sv == "") = false)
    (h3 : fromisoformat sv = Option.none) :
    get_records s cursor scan = Except.error TapError.valueError := by
  have hbf : buildFilter s cursor = Except.error TapError.valueError := by
    simp [buildFilter, h1, PyVal.truthy, h2, h3]
  unfold get_records
  rw [hbf]

/-- C5 (witness): the concrete cursor string `not-a-date` aborts the scan
with the parse error. -/
theorem C5_witness :
    get_records sW1 (some (PyVal.str "not-a-date")) scanStub =
      Except.error TapError.valueError :=
  C5_unparseable_cursor sW1 (some (PyVal.str "not-a-date")) scanStub "not-a-date"
    rfl rfl rfl

/-! ## C6 -/

/-- The nullable date field specification (`format: date`,
`type: ["string", "null"]`). -/
def schC6 : FieldSchema := { type := ["string", "null"], format := some "date" }

/-- C6 (confirmed): the formatter assigned to a nullable date field is the
date-truncation rule, and it maps `None` to `None`, the string
`2023-05-17T10:00:00` to `2023-05-17`, and the date object 2023-05-17 to
`2023-05-17`. -/
theorem C6_date_formatting :
    formatterFor schC6 = Formatter.dateFmt ∧
    Formatter.apply (formatterFor schC6) PyVal.none = PyVal.none ∧
    Formatter.apply (formatterFor schC6) (PyVal.str "2023-05-17T10:00:00") =
      PyVal.str "2023-05-17" ∧
    Formatter.apply (formatterFor schC6) (PyVal.date 2023 5 17) =
      PyVal.str "2023-05-17" :=
  ⟨rfl, rfl, rfl, rfl⟩

/-! ## C7 -/

/-- A date field marked nullable with the type list in the other order. -/
def schC7 : FieldSchema := { type := ["null", "string"], format := some "date" }

/-- C7 (counterexample): the field specification `schC7` has logical-format
date and is marked nullable per the generator's shape contract (its type
list includes the null marker), yet `_create_formatters`'s branch assigns
it the null-preserving pass-through, not the date-truncation rule, because
the code compares `schema["type"]` against the exact list
`["string", "null"]`. -/
theorem C7_counterexample :
    specNullable schC7 = true ∧
    schC7.format = some "date" ∧
    formatterFor schC7 = Formatter.nullPreserving ∧
    (Formatter.nullPreserving == Formatter.dateFmt) = false :=
  ⟨rfl, rfl, rfl, rfl⟩

/-- C7 (amended): `_create_formatters` assigns the date-truncation rule to
exactly the fields whose format is date and whose declared type is the
exact two-element list with string first and the null marker second; every
field specification in `properties` is mapped through this branch
selection. -/
theorem C7_date_rule_assignment (schema : FieldSchema) :
    (formatterFor schema = Formatter.dateFmt ↔
        schema.format = some "date" ∧ schema.type = ["string", "null"]) ∧
    (∀ props f, (f, schema) ∈ props →
        (f, formatterFor schema) ∈ _create_formatters props) := by
  constructor
  · constructor
    · intro h
      unfold formatterFor at h
      split at h
      · rename_i hc
        simp only [Bool.and_eq_true, beq_iff_eq] at hc
        exact hc
      · split at h <;> simp at h
    · rintro ⟨h1, h2⟩
      unfold formatterFor
      rw [h1, h2]
      rfl
  · intro props f hmem
    unfold _create_formatters
    exact List.mem_map.mpr ⟨(f, schema), hmem, rfl⟩

/-- C7 (witness): the exact-shape specification does get the date rule, and
the formatter dict contains its entry. -/
theorem C7_witness :
    formatterFor schC6 = Formatter.dateFmt ∧
    ("d", formatterFor schC6) ∈ _create_formatters [("d", schC6)] :=
  ⟨(C7_date_rule_assignment schC6).1.mpr ⟨rfl, rfl⟩,
   (C7_date_rule_assignment schC6).2 [("d", schC6)] "d" (by simp)⟩

/-! ## C8 -/

/-- C8 (confirmed): `_format_date` collapses every value that is neither a
date/datetime object nor a string to `None` instead of raising, so a
malformed date-like cell degrades to null rather than aborting the scan. -/
theorem C8_format_date_fallback (v : PyVal)
    (h1 : v.isDateOrDatetime = false) (h2 : v.isStr = false) :
    _format_date v = PyVal.none := by
  cases v with
  | none => rfl
  | str sv => simp [PyVal.isStr] at h2
  | int n => rfl
  | bool b => rfl
  | date y m d => simp [PyVal.isDateOrDatetime] at h1
  | datetime dt => simp [PyVal.isDateOrDatetime] at h1

/-- C8 (witness): the integer `5` is neither date-like nor a string and
formats to `None`. -/
theorem C8_witness : _format_date (PyVal.int 5) = PyVal.none :=
  C8_format_date_fallback (PyVal.int 5) rfl rfl

/-! ## C9 -/

/-- C9 (confirmed): on a record whose fields all appear in the stream's
field specifications, carry no `None` value, and include no field that the
date-truncation branch would claim, `_format_record` is the identity. -/
theorem C9_identity_on_plain_records (props : List (String × FieldSchema))
    (record : Row)
    (hpresent : ∀ fv, fv ∈ record → (List.lookup fv.1 props).isSome = true)
    (hnonull : ∀ fv, fv ∈ record → fv.2 ≠ PyVal.none)
    (hnodate : ∀ fv, fv ∈ record →
        Option.all (fun sch => !(sch.format == some "date" && specNullable sch))
          (List.lookup fv.1 props) = true) :
    _format_record record (_create_formatters props) = some record := by
  induction record with
  | nil => rfl
  | cons fv rest ih =>
      obtain ⟨sch, hsch⟩ :=
        Option.isSome_iff_exists.mp (hpresent fv (List.mem_cons_self _ _))
      have hlk : List.lookup fv.1 (_create_formatters props) =
          some (formatterFor sch) := by
        rw [lookup_create_formatters, hsch]
        rfl
      have hrest : _format_record rest (_create_formatters props) = some rest :=
        ih (fun x hx => hpresent x (List.mem_cons_of_mem _ hx))
          (fun x hx => hnonull x (List.mem_cons_of_mem _ hx))
          (fun x hx => hnodate x (List.mem_cons_of_mem _ hx))
      have happ : Formatter.apply (formatterFor sch) fv.2 = fv.2 := by
        apply formatter_apply_identity
        · have hd := hnodate fv (List.mem_cons_self _ _)
          rw [hsch] at hd
          have hd2 : (!(sch.format == some "date" && specNullable sch)) = true := hd
          cases hb : (sch.format == some "date" && specNullable sch) with
          | false => rfl
          | true => rw [hb] at hd2; exact absurd hd2 (by decide)
        · exact hnonull fv (List.mem_cons_self _ _)
      simp [_format_record, hlk, hrest, happ]

/-- The two non-date field specifications of the witness record. -/
def props9 : List (String × FieldSchema) :=
  [("a", { type := ["integer"], format := Option.none }),
   ("b", { type := ["string", "null"], format := Option.none })]

/-- A record with no nulls over `props9`. -/
def rec9 : Row := [("a", PyVal.int 1), ("b", PyVal.str "x")]

/-- C9 (witness): formatting the concrete record returns it unchanged. -/
theorem C9_witness : _format_record rec9 (_create_formatters props9) = some rec9 :=
  C9_identity_on_plain_records props9 rec9 (by decide) (by decide) (by decide)

/-! ## C10 -/

/-- When every key of the row is bound in `properties`, formatting succeeds
and preserves the key sequence. -/
theorem format_record_total (props : List (String × FieldSchema)) :
    ∀ record : Row,
      (∀ fv, fv ∈ record → (List.lookup fv.1 props).isSome = true) →
      ∃ out, _format_record record (_create_formatters props) = some out ∧
        out.map Prod.fst = record.map Prod.fst := by
  intro record
  induction record with
  | nil => intro _; exact ⟨[], rfl, rfl⟩
  | cons fv rest ih =>
      intro hall
      obtain ⟨sch, hsch⟩ :=
        Option.isSome_iff_exists.mp (hall fv (List.mem_cons_self _ _))
      obtain ⟨out, hout, hkeys⟩ :=
        ih (fun x hx => hall x (List.mem_cons_of_mem _ hx))
      refine ⟨(fv.1, Formatter.apply (formatterFor sch) fv.2) :: out, ?_, ?_⟩
      · simp [_format_record, lookup_create_formatters, hsch, hout]
      · simp [hkeys]

/-- A key bound nowhere in `properties` makes formatting fail with the
missing-key error, wherever it sits in the row. -/
theorem format_record_missing (props : List (String × FieldSchema)) (f : String)
    (v : PyVal) :
    ∀ record : Row, (f, v) ∈ record → List.lookup f props = Option.none →
      _format_record record (_create_formatters props) = Option.none := by
  intro record
  induction record with
  | nil => intro h _; cases h
  | cons fv rest ih =>
      intro hmem hnone
      rcases List.mem_cons.mp hmem with heq | htail
      · have hlk : List.lookup f (_create_formatters props) = Option.none := by
          rw [lookup_create_formatters, hnone]
          rfl
        rw [← heq]
        simp [_format_record, hlk]
      · have hr := ih htail hnone
        cases hlk : List.lookup fv.1 (_create_formatters props) with
        | none => simp [_format_record, hlk]
        | some fmt => simp [_format_record, hlk, hr]

/-- C10 (confirmed): `_format_record` subscripts the formatter dict with no
fallback — if every row key is in the stream's schema properties the output
exists with exactly the input's keys, and a single out-of-schema key makes
the whole call fail with the missing-key error instead of passing the field
through or dropping it. -/
theorem C10_formatter_lookup_strict (props : List (String × FieldSchema))
    (record : Row) :
    ((∀ fv, fv ∈ record → (List.lookup fv.1 props).isSome = true) →
        ∃ out, _format_record record (_create_formatters props) = some out ∧
          out.map Prod.fst = record.map Prod.fst) ∧
    (∀ f v, (f, v) ∈ record → List.lookup f props = Option.none →
        _format_record record (_create_formatters props) = Option.none) :=
  ⟨format_record_total props record,
   fun f v hmem hnone => format_record_missing props f v record hmem hnone⟩

/-- Schema with the single field `a` for the C10 witness. -/
def props10 : List (String × FieldSchema) :=
  [("a", { type := ["integer"], format := Option.none })]

/-- A row carrying a field that is not in the schema. -/
def rec10 : Row := [("a", PyVal.int 1), ("extra", PyVal.int 2)]

/-- C10 (witness): the out-of-schema field `extra` makes `_format_record`
fail with the missing-key error. -/
theorem C10_witness :
    _format_record rec10 (_create_formatters props10) = Option.none :=
  (C10_formatter_lookup_strict props10 rec10).2 "extra" (PyVal.int 2)
    (by decide) (by decide)
